import Mathlib

/-!
Shallow embedding of `liblight/lights.c` (Samsung tuna lights HAL).

The C file multiplexes three logical LED channels (attention, notification,
charging) onto one physical AN30259A LED through a three-slot array of
virtual LED states, a fixed-priority arbitration scan, and a slope-blink
encoder, plus an independent backlight path.

The OS/device boundary (open/ioctl/write results) is modelled by an oracle
(`Device`, `BacklightSink`); the trace of control operations issued to the
device is returned explicitly so that "which operations were attempted"
is provable.
-/

/- Constants from hardware/lights.h. -/
def LIGHT_FLASH_NONE : Int := 0
def LIGHT_FLASH_TIMED : Int := 1
def LIGHT_FLASH_HARDWARE : Int := 2

/- errno constant used by the HAL. -/
def EINVAL : Int := 22

/- Constants defined at the top of lights.c. -/
def IMAX : Int := 0
def SLOPE_UP_1 : Int := 450
def SLOPE_UP_2 : Int := 500 - SLOPE_UP_1
def SLOPE_DOWN_1 : Int := SLOPE_UP_2
def SLOPE_DOWN_2 : Int := SLOPE_UP_1
def MID_BRIGHTNESS : Nat := 31

/- enum LED_Type from lights.c. -/
def LED_TYPE_ATTENTION : Int := 0
def LED_TYPE_NOTIFICATION : Int := 1
def LED_TYPE_CHARGING : Int := 2
def LED_TYPE_LAST : Int := 3

/-- LED activation states from linux/leds-an30259a.h; `LED_LIGHT_OFF` is the
enum value 0, which is what `memset(..., 0, ...)` leaves in the `state` field. -/
inductive LedLightState where
  | LED_LIGHT_OFF
  | LED_LIGHT_ON
  | LED_LIGHT_BLINK
  | LED_LIGHT_SLOPE
deriving DecidableEq, Repr

/-- struct an30259a_pr_control: the per-channel physical LED descriptor.
`color` is an unsigned 32-bit RGB value (modelled as Nat; the HAL always
masks it to 24 bits before storing). The four slope times and `time_off`
are C ints (modelled as Int); `mid_brightness` is an unsigned byte. -/
structure an30259a_pr_control where
  state : LedLightState
  color : Nat
  time_slope_up_1 : Int
  time_slope_up_2 : Int
  time_slope_down_1 : Int
  time_slope_down_2 : Int
  mid_brightness : Nat
  time_off : Int
deriving DecidableEq, Repr

/-- The descriptor produced by `memset(led_state, 0, sizeof(*led_state))`. -/
def zeroLed : an30259a_pr_control :=
  ⟨LedLightState.LED_LIGHT_OFF, 0, 0, 0, 0, 0, 0, 0⟩

/-- struct light_state_t (hardware/lights.h), the fields lights.c reads:
`color` is unsigned, the rest are C ints. -/
structure light_state_t where
  color : Nat
  flashMode : Int
  flashOnMS : Int
  flashOffMS : Int
deriving DecidableEq, Repr

/-- The three-slot global `g_led_states` array, indexed by LED type. -/
def LedStates : Type := Fin 3 → an30259a_pr_control

/-- `init_g_lock` zeroes the whole array. -/
def init_g_led_states : LedStates := fun _ => zeroLed

/-- A control operation issued to the LED device via ioctl, with its
argument; used as a trace of what write_leds attempted. -/
inductive DevOp where
  | setImax (imax : Int)
  | setLed (led : an30259a_pr_control)
deriving DecidableEq, Repr

/-- Oracle for the LED device node: whether `open(LED_FILE)` succeeds, the
errno if it fails, and the results the two ioctls would return. -/
structure Device where
  openOk : Bool
  openErrno : Int
  imaxResult : Int
  setLedResult : an30259a_pr_control → Int

/-- write_leds (lights.c lines 118-145): open the device; on success issue
the SET_IMAX ioctl and then, unconditionally, the SET_LED ioctl, and return
the second ioctl's result (`err` is overwritten — the imax result is only
logged); on open failure return -errno and issue no control operation. -/
def write_leds (dev : Device) (led : an30259a_pr_control) : Int × List DevOp :=
  if dev.openOk then
    (dev.setLedResult led, [DevOp.setImax IMAX, DevOp.setLed led])
  else
    (-dev.openErrno, [])

/-- The loop body of write_leds_priority: scan the given indices in order
and return the first whose stored state is not LED_LIGHT_OFF. -/
def find_lit_led (g : LedStates) : List (Fin 3) → Option (Fin 3)
  | [] => none
  | i :: rest =>
      if (g i).state ≠ LedLightState.LED_LIGHT_OFF then some i
      else find_lit_led g rest

/-- write_leds_priority (lights.c lines 148-163): write the first virtual
LED (scanning indices 0,1,2) that is not off; if none is lit, write slot
LED_TYPE_LAST - 1 (the charging slot) to make sure the LED is turned off. -/
def write_leds_priority (dev : Device) (g : LedStates) : Int × List DevOp :=
  match find_lit_led g [0, 1, 2] with
  | some i => write_leds dev (g i)
  | none => write_leds dev (g 2)

/-- The slot content that set_light_leds (lines 171-204) leaves in
`g_led_states[type]`, together with `some err` when the function returns
early (the `default: return -EINVAL` arm of the switch) and `none` when it
falls through to write_leds_priority. The slot is first zeroed by memset;
on the early-return path the masked color has already been assigned. -/
def set_light_leds_slot (state : light_state_t) : an30259a_pr_control × Option Int :=
  if state.color &&& 0xffffff ≠ 0 then
    let c0 := state.color &&& 0xffffff
    -- tweak to eliminate purplish tint from white color
    let c := if c0 = 0xffffff then 0x80ff80 else c0
    if state.flashMode = LIGHT_FLASH_NONE then
      ({ zeroLed with state := LedLightState.LED_LIGHT_ON, color := c }, none)
    else if state.flashMode = LIGHT_FLASH_TIMED ∨ state.flashMode = LIGHT_FLASH_HARDWARE then
      ({ state := LedLightState.LED_LIGHT_SLOPE,
         color := c,
         time_slope_up_1 := Int.tdiv (SLOPE_UP_1 * state.flashOnMS) 1000,
         time_slope_up_2 := Int.tdiv (SLOPE_UP_2 * state.flashOnMS) 1000,
         time_slope_down_1 := Int.tdiv (SLOPE_DOWN_1 * state.flashOnMS) 1000,
         time_slope_down_2 := Int.tdiv (SLOPE_DOWN_2 * state.flashOnMS) 1000,
         mid_brightness := MID_BRIGHTNESS,
         time_off := state.flashOffMS }, none)
    else
      -- default: return -EINVAL, with the slot already holding the masked color
      ({ zeroLed with color := c }, some (-EINVAL))
  else
    ({ zeroLed with state := LedLightState.LED_LIGHT_OFF }, none)

/-- set_light_leds (lights.c lines 165-208): bounds-check the type, update
the slot in place, and (unless the switch hit its default arm) let
write_leds_priority decide what reaches the device. Returns (result,
final store, device-operation trace). -/
def set_light_leds (dev : Device) (g : LedStates) (state : light_state_t)
    (type : Int) : Int × LedStates × List DevOp :=
  if type < 0 ∨ LED_TYPE_LAST ≤ type then
    (-EINVAL, g, [])
  else
    -- the bounds check above makes 0 ≤ type < 3, so this is plain indexing
    let i : Fin 3 := Fin.ofNat type.toNat
    let slot := set_light_leds_slot state
    let g2 : LedStates := Function.update g i slot.1
    match slot.2 with
    | some err => (err, g2, [])
    | none =>
        let r := write_leds_priority dev g2
        (r.1, g2, r.2)

/-- set_light_leds_notifications (lights.c lines 211-215). -/
def set_light_leds_notifications (dev : Device) (g : LedStates)
    (state : light_state_t) : Int × LedStates × List DevOp :=
  set_light_leds dev g state LED_TYPE_NOTIFICATION

/-- set_light_leds_attention (lights.c lines 217-226): a flashMode of
LIGHT_FLASH_NONE is NotificationManager's way of turning attention off,
so the color is forced to 0 before delegating. -/
def set_light_leds_attention (dev : Device) (g : LedStates)
    (state : light_state_t) : Int × LedStates × List DevOp :=
  let attention_state :=
    if state.flashMode = LIGHT_FLASH_NONE then { state with color := 0 }
    else state
  set_light_leds dev g attention_state LED_TYPE_ATTENTION

/-- set_light_leds_battery (lights.c lines 228-232). -/
def set_light_leds_battery (dev : Device) (g : LedStates)
    (state : light_state_t) : Int × LedStates × List DevOp :=
  set_light_leds dev g state LED_TYPE_CHARGING

/-- rgb_to_brightness (lights.c lines 87-93): luma weighting of the 24-bit
masked color. All intermediate values are nonnegative. -/
def rgb_to_brightness (state : light_state_t) : Nat :=
  let color := state.color &&& 0xffffff
  (77 * ((color >>> 16) &&& 0xff) + 150 * ((color >>> 8) &&& 0xff)
    + 29 * (color &&& 0xff)) >>> 8

/-- Oracle for the backlight sysfs node: the result write_int would return
for a given brightness value. -/
structure BacklightSink where
  writeResult : Nat → Int

/-- set_light_backlight (lights.c lines 95-106): compute the brightness and
write that single value; returns (result, list of values written). -/
def set_light_backlight (bl : BacklightSink) (state : light_state_t) :
    Int × List Nat :=
  let brightness := rgb_to_brightness state
  (bl.writeResult brightness, [brightness])

/-- The invariant claimed of stored descriptors: an Off descriptor has all
color, timing and mid-brightness fields zero. -/
def led_off_zeroed (d : an30259a_pr_control) : Prop :=
  d.state = LedLightState.LED_LIGHT_OFF →
    d.color = 0 ∧ d.time_slope_up_1 = 0 ∧ d.time_slope_up_2 = 0 ∧
    d.time_slope_down_1 = 0 ∧ d.time_slope_down_2 = 0 ∧
    d.mid_brightness = 0 ∧ d.time_off = 0

instance (d : an30259a_pr_control) : Decidable (led_off_zeroed d) := by
  unfold led_off_zeroed; infer_instance

/-- The invariant lifted to the whole three-slot store. -/
def store_off_zeroed (g : LedStates) : Prop := ∀ i : Fin 3, led_off_zeroed (g i)

instance (g : LedStates) : Decidable (store_off_zeroed g) := by
  unfold store_off_zeroed; infer_instance

/- Concrete device oracles used in witnesses and counterexamples. -/

/-- A device on which open and both ioctls succeed. -/
def devOk : Device := ⟨true, 19, 0, fun _ => 0⟩

/-- A device whose node cannot be opened (errno 19, ENODEV). -/
def devNoOpen : Device := ⟨false, 19, 0, fun _ => 0⟩

/-- A device that opens, fails the SET_IMAX ioctl, and succeeds at SET_LED. -/
def devImaxFail : Device := ⟨true, 19, -1, fun _ => 0⟩

/-! ## Helper lemmas -/

theorem fin3_ofNat_val (i : Fin 3) : (Fin.ofNat i.val : Fin 3) = i := by
  apply Fin.ext
  simp [Fin.ofNat, Nat.mod_eq_of_lt i.isLt]

theorem fin3_guard (i : Fin 3) :
    ¬ (((i.val : Nat) : Int) < 0 ∨ LED_TYPE_LAST ≤ ((i.val : Nat) : Int)) := by
  simp only [LED_TYPE_LAST]
  have := i.isLt
  omega

/-- The store left by set_light_leds on a valid type is exactly the old
store with slot `i` replaced by the freshly encoded descriptor, on every
path (EINVAL switch default, failed or successful device write alike). -/
theorem set_light_leds_store_eq (dev : Device) (g : LedStates)
    (state : light_state_t) (i : Fin 3) :
    (set_light_leds dev g state (i.val : Int)).2.1
      = Function.update g i (set_light_leds_slot state).1 := by
  unfold set_light_leds
  rw [if_neg (fin3_guard i)]
  simp only [Int.toNat_natCast, fin3_ofNat_val]
  cases hs : (set_light_leds_slot state).2 <;> simp [hs]

/-- A request whose masked color is zero encodes to the all-zero Off
descriptor with no early error, whatever its flashMode. -/
theorem slot_zero_color (s : light_state_t) (h : s.color &&& 0xffffff = 0) :
    set_light_leds_slot s = (zeroLed, none) := by
  unfold set_light_leds_slot
  rw [if_neg (not_not_intro h)]
  rfl

/-- A request whose masked color is nonzero and whose flashMode is not one
of the three recognized values hits the switch's default arm: early return
of -EINVAL, slot left Off-with-color. -/
theorem slot_invalid_mode (s : light_state_t) (hc : s.color &&& 0xffffff ≠ 0)
    (h0 : s.flashMode ≠ LIGHT_FLASH_NONE) (h1 : s.flashMode ≠ LIGHT_FLASH_TIMED)
    (h2 : s.flashMode ≠ LIGHT_FLASH_HARDWARE) :
    (set_light_leds_slot s).2 = some (-EINVAL) := by
  unfold set_light_leds_slot
  simp [hc, h0, h1, h2]

/-! ## Claims -/

/-- C1: write_leds_priority scans the slots in the fixed order Attention
(0), Notification (1), Charging (2) and issues exactly one device-writer
call: with the descriptor of the first channel whose state is not Off, or
with the Charging slot's (Off) descriptor when all three are Off. -/
theorem C1_priority_first_lit (dev : Device) (g : LedStates) :
    ∃ d : an30259a_pr_control,
      write_leds_priority dev g = write_leds dev d ∧
      (((g 0).state ≠ LedLightState.LED_LIGHT_OFF ∧ d = g 0) ∨
       ((g 0).state = LedLightState.LED_LIGHT_OFF ∧
        (g 1).state ≠ LedLightState.LED_LIGHT_OFF ∧ d = g 1) ∨
       ((g 0).state = LedLightState.LED_LIGHT_OFF ∧
        (g 1).state = LedLightState.LED_LIGHT_OFF ∧
        (g 2).state ≠ LedLightState.LED_LIGHT_OFF ∧ d = g 2) ∨
       ((g 0).state = LedLightState.LED_LIGHT_OFF ∧
        (g 1).state = LedLightState.LED_LIGHT_OFF ∧
        (g 2).state = LedLightState.LED_LIGHT_OFF ∧ d = g 2)) := by
  by_cases h0 : (g 0).state = LedLightState.LED_LIGHT_OFF
  · by_cases h1 : (g 1).state = LedLightState.LED_LIGHT_OFF
    · by_cases h2 : (g 2).state = LedLightState.LED_LIGHT_OFF
      · exact ⟨g 2, by simp [write_leds_priority, find_lit_led, h0, h1, h2],
          Or.inr (Or.inr (Or.inr ⟨h0, h1, h2, rfl⟩))⟩
      · exact ⟨g 2, by simp [write_leds_priority, find_lit_led, h0, h1, h2],
          Or.inr (Or.inr (Or.inl ⟨h0, h1, h2, rfl⟩))⟩
    · exact ⟨g 1, by simp [write_leds_priority, find_lit_led, h0, h1],
        Or.inr (Or.inl ⟨h0, h1, rfl⟩)⟩
  · exact ⟨g 0, by simp [write_leds_priority, find_lit_led, h0], Or.inl ⟨h0, rfl⟩⟩

/-- C2: when the request's flashMode is LIGHT_FLASH_NONE, set_light_leds_attention
forces the color to 0, so the Attention slot is set to the all-zero Off
descriptor regardless of the color the caller supplied. -/
theorem C2_attention_none_cancels (dev : Device) (g : LedStates)
    (state : light_state_t) (h : state.flashMode = LIGHT_FLASH_NONE) :
    (set_light_leds_attention dev g state).2.1 0 = zeroLed := by
  simp only [set_light_leds_attention]
  rw [if_pos h]
  have hs := set_light_leds_store_eq dev g { state with color := 0 } (0 : Fin 3)
  rw [show (((0 : Fin 3).val : Nat) : Int) = LED_TYPE_ATTENTION from rfl] at hs
  rw [hs, slot_zero_color { state with color := 0 } (by simp)]
  simp

/-- Witness for C2 at a concrete colored request. -/
theorem C2_witness :
    (set_light_leds_attention devOk init_g_led_states ⟨0xabcdef, 0, 5, 5⟩).2.1 0 = zeroLed :=
  C2_attention_none_cancels devOk init_g_led_states ⟨0xabcdef, 0, 5, 5⟩ rfl

/-- C3: a request whose 24-bit masked color is zero stores the all-zero Off
descriptor in its slot, whatever the flashMode (valid or not). -/
theorem C3_zero_color_off (dev : Device) (g : LedStates) (state : light_state_t)
    (i : Fin 3) (h : state.color &&& 0xffffff = 0) :
    (set_light_leds dev g state (i.val : Int)).2.1 i = zeroLed := by
  rw [set_light_leds_store_eq, slot_zero_color state h]
  simp

/-- Witness for C3: top byte set, masked color zero, nonsense flashMode. -/
theorem C3_witness :
    (set_light_leds devOk init_g_led_states ⟨0xff000000, 999, 7, 7⟩
      ((2 : Fin 3).val : Int)).2.1 2 = zeroLed :=
  C3_zero_color_off devOk init_g_led_states ⟨0xff000000, 999, 7, 7⟩ 2 (by decide)

/-- C4 counterexample: a request with flashMode 7 (not one of None/Timed/
Hardware) but zero color does NOT fail with -EINVAL: the zero-color branch
is taken before the flashMode switch is ever reached. -/
theorem C4_counterexample :
    ((⟨0, 7, 0, 0⟩ : light_state_t).flashMode ≠ LIGHT_FLASH_NONE ∧
     (⟨0, 7, 0, 0⟩ : light_state_t).flashMode ≠ LIGHT_FLASH_TIMED ∧
     (⟨0, 7, 0, 0⟩ : light_state_t).flashMode ≠ LIGHT_FLASH_HARDWARE) ∧
    (set_light_leds devOk init_g_led_states ⟨0, 7, 0, 0⟩ LED_TYPE_NOTIFICATION).1
      ≠ -EINVAL := by
  decide

/-- C4 (amended): a request with NONZERO masked color and a flashMode other
than None/Timed/Hardware makes set_light_leds return -EINVAL. -/
theorem C4_invalid_flashmode_einval (dev : Device) (g : LedStates)
    (state : light_state_t) (i : Fin 3)
    (hc : state.color &&& 0xffffff ≠ 0)
    (h0 : state.flashMode ≠ LIGHT_FLASH_NONE)
    (h1 : state.flashMode ≠ LIGHT_FLASH_TIMED)
    (h2 : state.flashMode ≠ LIGHT_FLASH_HARDWARE) :
    (set_light_leds dev g state (i.val : Int)).1 = -EINVAL := by
  unfold set_light_leds
  rw [if_neg (fin3_guard i)]
  simp [slot_invalid_mode state hc h0 h1 h2]

/-- Witness for the amended C4. -/
theorem C4_witness :
    (set_light_leds devOk init_g_led_states ⟨0x123456, 9, 0, 0⟩
      ((1 : Fin 3).val : Int)).1 = -EINVAL :=
  C4_invalid_flashmode_einval devOk init_g_led_states ⟨0x123456, 9, 0, 0⟩ 1
    (by decide) (by decide) (by decide) (by decide)

/-- Any encoding allowed to reach write_leds_priority (zero masked color or
a recognized flashMode) yields a slot satisfying the Off-implies-zeroed
invariant. -/
theorem slot_off_zeroed (s : light_state_t)
    (hvalid : s.color &&& 0xffffff = 0 ∨ s.flashMode = LIGHT_FLASH_NONE ∨
      s.flashMode = LIGHT_FLASH_TIMED ∨ s.flashMode = LIGHT_FLASH_HARDWARE) :
    led_off_zeroed (set_light_leds_slot s).1 := by
  by_cases hc : s.color &&& 0xffffff = 0
  · rw [slot_zero_color s hc]
    decide
  · rcases hvalid with h | h | h | h
    · exact absurd h hc
    · unfold led_off_zeroed set_light_leds_slot
      simp [hc, h, LIGHT_FLASH_NONE, LIGHT_FLASH_TIMED, LIGHT_FLASH_HARDWARE]
    · unfold led_off_zeroed set_light_leds_slot
      simp [hc, h, LIGHT_FLASH_NONE, LIGHT_FLASH_TIMED, LIGHT_FLASH_HARDWARE]
    · unfold led_off_zeroed set_light_leds_slot
      simp [hc, h, LIGHT_FLASH_NONE, LIGHT_FLASH_TIMED, LIGHT_FLASH_HARDWARE]

/-- Updating one slot with an invariant-respecting descriptor preserves the
store invariant. -/
theorem store_update_off_zeroed (g : LedStates) (i : Fin 3)
    (d : an30259a_pr_control) (hg : store_off_zeroed g) (hd : led_off_zeroed d) :
    store_off_zeroed (Function.update g i d) := by
  intro j
  rcases eq_or_ne j i with rfl | hji
  · rwa [Function.update_same]
  · rw [Function.update_noteq hji]
    exact hg j

/-- C5 counterexample: from the all-zero store, a set with nonzero color and
flashMode 3 returns -EINVAL but leaves the Attention slot with
state = Off and color = 1, breaking the claimed invariant. -/
theorem C5_counterexample :
    store_off_zeroed init_g_led_states ∧
    ¬ store_off_zeroed
        (set_light_leds devOk init_g_led_states ⟨1, 3, 0, 0⟩ LED_TYPE_ATTENTION).2.1 := by
  decide

/-- C5 (amended): the Off-implies-zeroed invariant is preserved by every
set operation whose request has zero masked color or a recognized
flashMode — including the out-of-range-type error and failed device
writes; only the invalid-flashMode early return can break it. -/
theorem C5_off_zeroed_preserved (dev : Device) (g : LedStates)
    (state : light_state_t) (type : Int) (hg : store_off_zeroed g)
    (hvalid : state.color &&& 0xffffff = 0 ∨ state.flashMode = LIGHT_FLASH_NONE ∨
      state.flashMode = LIGHT_FLASH_TIMED ∨ state.flashMode = LIGHT_FLASH_HARDWARE) :
    store_off_zeroed (set_light_leds dev g state type).2.1 := by
  unfold set_light_leds
  by_cases hb : type < 0 ∨ LED_TYPE_LAST ≤ type
  · rw [if_pos hb]
    exact hg
  · rw [if_neg hb]
    cases hs : (set_light_leds_slot state).2 <;>
      simp only [hs] <;>
      exact store_update_off_zeroed g _ _ hg (slot_off_zeroed state hvalid)

/-- Witness for the amended C5: a blink request against an unopenable
device still preserves the invariant. -/
theorem C5_witness :
    store_off_zeroed
      (set_light_leds devNoOpen init_g_led_states ⟨0xff, 1, 10, 10⟩ LED_TYPE_CHARGING).2.1 :=
  C5_off_zeroed_preserved devNoOpen init_g_led_states ⟨0xff, 1, 10, 10⟩ LED_TYPE_CHARGING
    (by decide) (Or.inr (Or.inr (Or.inl rfl)))

/-- The descriptor encoded for a Timed/Hardware blink request with nonzero
masked color, written out with the slope macros expanded. -/
theorem slot_timed (s : light_state_t) (hc : s.color &&& 0xffffff ≠ 0)
    (hm : s.flashMode = LIGHT_FLASH_TIMED ∨ s.flashMode = LIGHT_FLASH_HARDWARE) :
    (set_light_leds_slot s).1 =
      { state := LedLightState.LED_LIGHT_SLOPE,
        color := if s.color &&& 0xffffff = 0xffffff then 0x80ff80
                 else s.color &&& 0xffffff,
        time_slope_up_1 := Int.tdiv (450 * s.flashOnMS) 1000,
        time_slope_up_2 := Int.tdiv (50 * s.flashOnMS) 1000,
        time_slope_down_1 := Int.tdiv (50 * s.flashOnMS) 1000,
        time_slope_down_2 := Int.tdiv (450 * s.flashOnMS) 1000,
        mid_brightness := 31,
        time_off := s.flashOffMS } := by
  have hne : s.flashMode ≠ LIGHT_FLASH_NONE := by
    rcases hm with h | h <;> rw [h] <;> decide
  unfold set_light_leds_slot
  simp [hc, hne, hm, SLOPE_UP_1, SLOPE_UP_2, SLOPE_DOWN_1, SLOPE_DOWN_2,
    MID_BRIGHTNESS]

/-- Splitting a truncated division of 500·t into the 450·t and 50·t parts
loses at most one unit (for nonnegative t). -/
theorem slope_pair_bound (t : Int) (h : 0 ≤ t) :
    Int.tdiv (500 * t) 1000 - 1
        ≤ Int.tdiv (450 * t) 1000 + Int.tdiv (50 * t) 1000 ∧
    Int.tdiv (450 * t) 1000 + Int.tdiv (50 * t) 1000
        ≤ Int.tdiv (500 * t) 1000 := by
  lift t to ℕ using h with n
  have key : ∀ a b : ℕ, Int.tdiv (a : ℤ) (b : ℤ) = ((a / b : ℕ) : ℤ) :=
    fun a b => rfl
  have e450 : (450 : ℤ) * (n : ℤ) = ((450 * n : ℕ) : ℤ) := by push_cast ; ring
  have e50 : (50 : ℤ) * (n : ℤ) = ((50 * n : ℕ) : ℤ) := by push_cast ; ring
  have e500 : (500 : ℤ) * (n : ℤ) = ((500 * n : ℕ) : ℤ) := by push_cast ; ring
  have e1000 : (1000 : ℤ) = ((1000 : ℕ) : ℤ) := by norm_num
  rw [e450, e50, e500, e1000, key, key, key]
  constructor <;> omega

/-- C6: a Timed/Hardware request with nonzero masked color stores the four
segment durations (450·on)/1000, (50·on)/1000, (50·on)/1000, (450·on)/1000
(C truncated division), the rise pair equals the fall pair and — for a
nonnegative on-duration — each pair is (500·on)/1000 within one unit of
truncation; mid_brightness is 31 and time_off is flashOffMS verbatim. -/
theorem C6_slope_timing (dev : Device) (g : LedStates) (state : light_state_t)
    (i : Fin 3) (hc : state.color &&& 0xffffff ≠ 0)
    (hm : state.flashMode = LIGHT_FLASH_TIMED ∨ state.flashMode = LIGHT_FLASH_HARDWARE) :
    ((set_light_leds dev g state (i.val : Int)).2.1 i).time_slope_up_1
        = Int.tdiv (450 * state.flashOnMS) 1000 ∧
    ((set_light_leds dev g state (i.val : Int)).2.1 i).time_slope_up_2
        = Int.tdiv (50 * state.flashOnMS) 1000 ∧
    ((set_light_leds dev g state (i.val : Int)).2.1 i).time_slope_down_1
        = Int.tdiv (50 * state.flashOnMS) 1000 ∧
    ((set_light_leds dev g state (i.val : Int)).2.1 i).time_slope_down_2
        = Int.tdiv (450 * state.flashOnMS) 1000 ∧
    ((set_light_leds dev g state (i.val : Int)).2.1 i).time_slope_up_1
        + ((set_light_leds dev g state (i.val : Int)).2.1 i).time_slope_up_2
      = ((set_light_leds dev g state (i.val : Int)).2.1 i).time_slope_down_1
        + ((set_light_leds dev g state (i.val : Int)).2.1 i).time_slope_down_2 ∧
    (0 ≤ state.flashOnMS →
      Int.tdiv (500 * state.flashOnMS) 1000 - 1
          ≤ ((set_light_leds dev g state (i.val : Int)).2.1 i).time_slope_up_1
            + ((set_light_leds dev g state (i.val : Int)).2.1 i).time_slope_up_2 ∧
      ((set_light_leds dev g state (i.val : Int)).2.1 i).time_slope_up_1
          + ((set_light_leds dev g state (i.val : Int)).2.1 i).time_slope_up_2
        ≤ Int.tdiv (500 * state.flashOnMS) 1000) ∧
    ((set_light_leds dev g state (i.val : Int)).2.1 i).mid_brightness = 31 ∧
    ((set_light_leds dev g state (i.val : Int)).2.1 i).time_off
        = state.flashOffMS := by
  have hd : (set_light_leds dev g state (i.val : Int)).2.1 i
      = { state := LedLightState.LED_LIGHT_SLOPE,
          color := if state.color &&& 0xffffff = 0xffffff then 0x80ff80
                   else state.color &&& 0xffffff,
          time_slope_up_1 := Int.tdiv (450 * state.flashOnMS) 1000,
          time_slope_up_2 := Int.tdiv (50 * state.flashOnMS) 1000,
          time_slope_down_1 := Int.tdiv (50 * state.flashOnMS) 1000,
          time_slope_down_2 := Int.tdiv (450 * state.flashOnMS) 1000,
          mid_brightness := 31,
          time_off := state.flashOffMS } := by
    rw [set_light_leds_store_eq, Function.update_same, slot_timed state hc hm]
  rw [hd]
  exact ⟨rfl, rfl, rfl, rfl, Int.add_comm _ _,
    fun hpos => slope_pair_bound state.flashOnMS hpos, rfl, rfl⟩

/-- Witness for C6 at flashOnMS = 333: durations 149/16/16/149, pair sum
165, (500·333)/1000 = 166. -/
theorem C6_witness :
    ((set_light_leds devOk init_g_led_states ⟨0xff0000, 1, 333, 100⟩
        ((0 : Fin 3).val : Int)).2.1 0).time_slope_up_1
        = Int.tdiv (450 * 333) 1000 ∧
    ((set_light_leds devOk init_g_led_states ⟨0xff0000, 1, 333, 100⟩
        ((0 : Fin 3).val : Int)).2.1 0).time_slope_up_2
        = Int.tdiv (50 * 333) 1000 ∧
    ((set_light_leds devOk init_g_led_states ⟨0xff0000, 1, 333, 100⟩
        ((0 : Fin 3).val : Int)).2.1 0).time_slope_down_1
        = Int.tdiv (50 * 333) 1000 ∧
    ((set_light_leds devOk init_g_led_states ⟨0xff0000, 1, 333, 100⟩
        ((0 : Fin 3).val : Int)).2.1 0).time_slope_down_2
        = Int.tdiv (450 * 333) 1000 ∧
    ((set_light_leds devOk init_g_led_states ⟨0xff0000, 1, 333, 100⟩
        ((0 : Fin 3).val : Int)).2.1 0).time_slope_up_1
        + ((set_light_leds devOk init_g_led_states ⟨0xff0000, 1, 333, 100⟩
        ((0 : Fin 3).val : Int)).2.1 0).time_slope_up_2
      = ((set_light_leds devOk init_g_led_states ⟨0xff0000, 1, 333, 100⟩
        ((0 : Fin 3).val : Int)).2.1 0).time_slope_down_1
        + ((set_light_leds devOk init_g_led_states ⟨0xff0000, 1, 333, 100⟩
        ((0 : Fin 3).val : Int)).2.1 0).time_slope_down_2 ∧
    (0 ≤ (333 : Int) →
      Int.tdiv (500 * 333) 1000 - 1
          ≤ ((set_light_leds devOk init_g_led_states ⟨0xff0000, 1, 333, 100⟩
            ((0 : Fin 3).val : Int)).2.1 0).time_slope_up_1
            + ((set_light_leds devOk init_g_led_states ⟨0xff0000, 1, 333, 100⟩
            ((0 : Fin 3).val : Int)).2.1 0).time_slope_up_2 ∧
      ((set_light_leds devOk init_g_led_states ⟨0xff0000, 1, 333, 100⟩
          ((0 : Fin 3).val : Int)).2.1 0).time_slope_up_1
          + ((set_light_leds devOk init_g_led_states ⟨0xff0000, 1, 333, 100⟩
          ((0 : Fin 3).val : Int)).2.1 0).time_slope_up_2
        ≤ Int.tdiv (500 * 333) 1000) ∧
    ((set_light_leds devOk init_g_led_states ⟨0xff0000, 1, 333, 100⟩
        ((0 : Fin 3).val : Int)).2.1 0).mid_brightness = 31 ∧
    ((set_light_leds devOk init_g_led_states ⟨0xff0000, 1, 333, 100⟩
        ((0 : Fin 3).val : Int)).2.1 0).time_off = 100 :=
  C6_slope_timing devOk init_g_led_states ⟨0xff0000, 1, 333, 100⟩ 0
    (by decide) (Or.inl rfl)

/-- C7: for a valid channel, the store after set_light_leds is always the
old store with that channel's slot replaced by the freshly encoded
descriptor. The right-hand side does not mention the device at all, so the
update is independent of whether the physical write succeeds, fails, or
the device node cannot even be opened. -/
theorem C7_store_updated_before_write (dev : Device) (g : LedStates)
    (state : light_state_t) (i : Fin 3) :
    (set_light_leds dev g state (i.val : Int)).2.1
      = Function.update g i (set_light_leds_slot state).1 :=
  set_light_leds_store_eq dev g state i

/-- C8 counterexample: on a device where the SET_IMAX ioctl fails (-1) but
SET_LED succeeds, write_leds returns 0 — the max-current error is
downgraded to success in the returned value. -/
theorem C8_counterexample :
    devImaxFail.imaxResult ≠ 0 ∧ (write_leds devImaxFail zeroLed).1 = 0 := by
  decide

/-- C8 (amended): when the device opens, both control operations are issued
in sequence (set max-current, then set descriptor) regardless of the first
operation's outcome, and the returned value is the second (last)
operation's result — so a set-LED error is always surfaced, but an imax
error alone is masked by a successful set-LED. -/
theorem C8_both_ops_last_result (dev : Device) (led : an30259a_pr_control)
    (h : dev.openOk = true) :
    write_leds dev led
      = (dev.setLedResult led, [DevOp.setImax IMAX, DevOp.setLed led]) := by
  unfold write_leds
  rw [if_pos h]

/-- Witness for the amended C8 on the imax-failing device. -/
theorem C8_witness :
    write_leds devImaxFail zeroLed
      = (devImaxFail.setLedResult zeroLed,
         [DevOp.setImax IMAX, DevOp.setLed zeroLed]) :=
  C8_both_ops_last_result devImaxFail zeroLed rfl

/-- A backlight sink accepting every value, for witnesses. -/
def blZero : BacklightSink := ⟨fun _ => 0⟩

/-- C9: set_light_backlight writes exactly the luma brightness of the
masked color; the brightness is always at most 255, is exactly 255 for
masked color 0xFFFFFF and exactly 0 for masked color 0. -/
theorem C9_backlight_brightness (bl : BacklightSink) (state : light_state_t) :
    set_light_backlight bl state
        = (bl.writeResult (rgb_to_brightness state), [rgb_to_brightness state]) ∧
    rgb_to_brightness state ≤ 255 ∧
    (state.color &&& 0xffffff = 0xffffff → rgb_to_brightness state = 255) ∧
    (state.color &&& 0xffffff = 0 → rgb_to_brightness state = 0) := by
  refine ⟨rfl, ?_, ?_, ?_⟩
  · have h1 : ((state.color &&& 0xffffff) >>> 16) &&& 0xff ≤ 0xff :=
      Nat.and_le_right
    have h2 : ((state.color &&& 0xffffff) >>> 8) &&& 0xff ≤ 0xff :=
      Nat.and_le_right
    have h3 : (state.color &&& 0xffffff) &&& 0xff ≤ 0xff := Nat.and_le_right
    simp only [rgb_to_brightness]
    rw [Nat.shiftRight_eq_div_pow]
    omega
  · intro h
    simp only [rgb_to_brightness, h]
    decide
  · intro h
    simp only [rgb_to_brightness, h]
    decide

/-- Witness for C9 at the two endpoint colors. -/
theorem C9_witness :
    rgb_to_brightness ⟨0xffffff, 0, 0, 0⟩ = 255 ∧
    rgb_to_brightness ⟨0, 0, 0, 0⟩ = 0 :=
  ⟨(C9_backlight_brightness blZero ⟨0xffffff, 0, 0, 0⟩).2.2.1 (by decide),
   (C9_backlight_brightness blZero ⟨0, 0, 0, 0⟩).2.2.2 (by decide)⟩

/-- C10: set_light_leds on a valid channel index leaves every other
channel's stored descriptor untouched, on every path (encode error,
device-write failure, or success). -/
theorem C10_frame_other_slots (dev : Device) (g : LedStates)
    (state : light_state_t) (i j : Fin 3) (hij : j ≠ i) :
    (set_light_leds dev g state (i.val : Int)).2.1 j = g j := by
  rw [set_light_leds_store_eq, Function.update_noteq hij]

/-- Witness for C10: setting Attention leaves the Charging slot unchanged. -/
theorem C10_witness :
    (set_light_leds devOk init_g_led_states ⟨0x00ff00, 0, 0, 0⟩
      ((0 : Fin 3).val : Int)).2.1 2 = init_g_led_states 2 :=
  C10_frame_other_slots devOk init_g_led_states ⟨0x00ff00, 0, 0, 0⟩ 0 2 (by decide)
